import Mathlib

/-!
Verification of the PharmaGuard pharmacogenomics core (vcf parsing module and
pgx_engine module) against its natural-language specification.

Shallow embedding conventions:
* Python `str` values are modelled as `PyStr := List Char`; the helper `ps`
  converts a Lean string literal to this representation.  The Python string
  operations used by the source (`strip`, `upper`, `lower`, `split` on a
  one-character separator, `startswith`, `partition`, f-string concatenation,
  truthiness) are modelled char-by-char below with Python semantics for the
  ASCII inputs this program manipulates.
* Python `int(...)` conversion is modelled by `pyParseInt` (optional
  surrounding whitespace, optional sign, decimal digits with the
  single-underscore digit-separator rule); Python `int` is unbounded, so the
  result is a Lean `Int`.
* Python dicts that the code only builds and queries are modelled as
  association lists with first-match lookup (`alookup`) and
  overwrite-in-place insertion (`dictInsert`).
* The byte-level boundary (UTF-8 decode with replacement, `splitlines`) is
  modelled by taking the decoded list of lines as the input; every claim in
  scope is about line-level behaviour.
* The confidence scores are decimal literal constants that the code stores
  and compares but never does arithmetic on; they are modelled exactly as
  rationals.
* The optional pysam backend is not part of the sources; following the
  module docstring, `parse_vcf` is modelled on its dependency-free path:
  structural validation followed by the pure line-based parse.
-/

/-- Python strings, modelled as lists of characters. -/
abbrev PyStr := List Char

/-- Convert a Lean string literal into the `PyStr` model. -/
def ps (s : String) : PyStr := s.data

/-- The whitespace characters stripped by Python `str.strip()` (ASCII range). -/
def isPySpace (c : Char) : Bool :=
  c = ' ' || c = '\t' || c = '\n' || c = '\r' || c = '\x0b' || c = '\x0c'

/-- Python `str.strip()`. -/
def pyStrip (s : PyStr) : PyStr :=
  ((s.dropWhile isPySpace).reverse.dropWhile isPySpace).reverse

/-- Python `str.upper()` (ASCII). -/
def pyUpper (s : PyStr) : PyStr := s.map Char.toUpper

/-- Python `str.lower()` (ASCII). -/
def pyLower (s : PyStr) : PyStr := s.map Char.toLower

/-- Python `str.split(sep)` for a one-character separator. -/
def pySplitChar (sep : Char) : PyStr → List PyStr
  | [] => [[]]
  | c :: rest =>
      if c = sep then [] :: pySplitChar sep rest
      else
        match pySplitChar sep rest with
        | [] => [[c]]
        | h :: t => (c :: h) :: t

/-- An ASCII decimal digit. -/
def isAsciiDigit (c : Char) : Bool := '0' ≤ c && c ≤ '9'

/-- Tail of a Python integer literal after its first digit: digits with
single underscores allowed between digits. -/
def pyDigitsTail : PyStr → Bool
  | [] => true
  | '_' :: rest =>
      match rest with
      | [] => false
      | c :: rest2 => isAsciiDigit c && pyDigitsTail rest2
  | c :: rest => isAsciiDigit c && pyDigitsTail rest

/-- A valid Python decimal digit sequence (nonempty, underscores only
between digits). -/
def pyDigitsOk : PyStr → Bool
  | [] => false
  | c :: rest => isAsciiDigit c && pyDigitsTail rest

/-- Numeric value of a digit sequence, ignoring underscores. -/
def pyDigitsVal (s : PyStr) : Nat :=
  (s.filter (fun c => c ≠ '_')).foldl (fun n c => 10 * n + (c.toNat - 48)) 0

/-- Python `int(s)` on a string: optional surrounding whitespace, optional
sign, decimal digits; `none` models the `ValueError` branch. -/
def pyParseInt (s : PyStr) : Option Int :=
  let t := pyStrip s
  match t with
  | '-' :: rest => if pyDigitsOk rest then some (-(pyDigitsVal rest : Int)) else none
  | '+' :: rest => if pyDigitsOk rest then some (pyDigitsVal rest : Int) else none
  | _ => if pyDigitsOk t then some (pyDigitsVal t : Int) else none

/-- First-match association-list lookup: Python `dict.get` on the dicts this
program builds. -/
def alookup {α β : Type} [DecidableEq α] : List (α × β) → α → Option β
  | [], _ => none
  | (k, v) :: rest, key => if k = key then some v else alookup rest key

/-- Python dict insertion `d[k] = v`: overwrite in place if the key exists,
otherwise append. -/
def dictInsert {α β : Type} [DecidableEq α] (l : List (α × β)) (k : α) (v : β) :
    List (α × β) :=
  if (alookup l k).isSome then l.map (fun p => if p.1 = k then (k, v) else p)
  else l ++ [(k, v)]

/-- Python string `≤` (lexicographic by code point), as a boolean. -/
def pyLe : PyStr → PyStr → Bool
  | [], _ => true
  | _ :: _, [] => false
  | a :: as, b :: bs => if a < b then true else if b < a then false else pyLe as bs

/-- The ordering relation used to model Python `sorted` on strings. -/
def pyLeR (a b : PyStr) : Prop := pyLe a b = true

instance : DecidableRel pyLeR := fun a b => by
  unfold pyLeR; infer_instance

/-- Python string `<` (strict lexicographic by code point). -/
def pyLt (a b : PyStr) : Prop := pyLe a b = true ∧ a ≠ b

/-! ### models module: enums and response structures -/

/-- Clinical risk classification (models module `RiskLabel`). -/
inductive RiskLabel where
  | SAFE | ADJUST_DOSAGE | TOXIC | INEFFECTIVE | UNKNOWN
  deriving DecidableEq, Repr

/-- Clinical severity level (models module `Severity`). -/
inductive Severity where
  | NONE | LOW | MODERATE | HIGH | CRITICAL
  deriving DecidableEq, Repr

/-- Metabolizer phenotype (models module `Phenotype`). -/
inductive Phenotype where
  | PM | IM | NM | RM | URM | UNKNOWN
  deriving DecidableEq, Repr

/-- models module `DetectedVariant`. -/
structure DetectedVariant where
  rsid : PyStr
  star : PyStr
  deriving DecidableEq, Repr

/-- models module `PharmacogenomicProfile`. -/
structure PharmacogenomicProfile where
  primary_gene : PyStr
  diplotype : PyStr
  phenotype : Phenotype
  detected_variants : List DetectedVariant
  deriving DecidableEq, Repr

/-- models module `RiskAssessment`.  The confidence score is a float constant
in the source; it is stored, never computed with, so it is modelled exactly
as a rational. -/
structure RiskAssessment where
  risk_label : RiskLabel
  confidence_score : ℚ
  severity : Severity
  deriving DecidableEq, Repr

/-- models module `AlternativeMedication`.  The three text fields are never
manipulated, so plain `String` is used for them. -/
structure AlternativeMedication where
  name : String
  rationale : String
  pgx_advantage : String
  deriving DecidableEq, Repr

/-- models module `ClinicalRecommendation`. -/
structure ClinicalRecommendation where
  action : String
  dosage_guidance : String
  monitoring : String
  contraindication : Bool
  guideline_source : String
  deriving DecidableEq, Repr

/-! ### vcf parsing module -/

/-- `SUPPORTED_GENES` (a Python set; modelled as the list of its members in
source order — only membership is ever used). -/
def SUPPORTED_GENES : List PyStr :=
  [ps ("CYP2D6"), ps ("CYP2C19"), ps ("CYP2C9"), ps ("SLCO1B1"),
   ps ("TPMT"), ps ("DPYD")]

/-- `VariantRecord` dataclass. -/
structure VariantRecord where
  chrom : PyStr
  pos : Int
  id : PyStr
  ref : PyStr
  alt : PyStr
  gene : PyStr := []
  star : PyStr := []
  rsid : PyStr := []
  raw_info : List (PyStr × PyStr) := []
  deriving DecidableEq, Repr

/-- `parse_info_field`: semicolon-separated `KEY=VALUE` or bare `FLAG`
tokens, keys upper-cased, later duplicates overwriting. -/
def parse_info_field (info_str : PyStr) : List (PyStr × PyStr) :=
  (pySplitChar ';' info_str).foldl
    (fun result token0 =>
      let token := pyStrip token0
      if '=' ∈ token then
        let k := token.takeWhile (fun c => c ≠ '=')
        let v := (token.dropWhile (fun c => c ≠ '=')).drop 1
        dictInsert result (pyUpper k) v
      else if token ≠ [] then dictInsert result (pyUpper token) (ps ("TRUE"))
      else result)
    []

/-- Loop body of `extract_rsid`: first `;`-separated token of the ID column
whose lower-casing starts with `rs`, else empty. -/
def findRsToken : List PyStr → PyStr
  | [] => []
  | p :: rest =>
      if (ps ("rs")).isPrefixOf (pyLower p) then p else findRsToken rest

/-- `extract_rsid`. -/
def extract_rsid (id_col : PyStr) (info : List (PyStr × PyStr)) : PyStr :=
  let rs_info := (alookup info (ps ("RS"))).getD []
  if rs_info ≠ [] then
    if ¬ (ps ("rs")).isPrefixOf rs_info then ps ("rs") ++ rs_info else rs_info
  else if id_col ≠ [] ∧ id_col ≠ ps (".") then
    findRsToken (pySplitChar ';' id_col)
  else []

/-- The gene-keyed variant map built by the parser (a Python dict with the
six supported genes as keys). -/
abbrev GeneMap := List (PyStr × List VariantRecord)

/-- `{g: [] for g in SUPPORTED_GENES}`. -/
def initGeneMap : GeneMap := SUPPORTED_GENES.map (fun g => (g, []))

/-- `gene_variants[gene].append(record)` (the gene is always a key). -/
def appendRecord (m : GeneMap) (g : PyStr) (r : VariantRecord) : GeneMap :=
  m.map (fun p => if p.1 = g then (p.1, p.2 ++ [r]) else p)

/-- `gene_variants.get(gene, [])`. -/
def getGene (m : GeneMap) (g : PyStr) : List VariantRecord :=
  (alookup m g).getD []

/-- One data line of `pure_python_parse`: `none` when the line is skipped
(comment/blank line, fewer than 8 columns, non-integer position, or an
unsupported gene), otherwise the gene and the record appended under it. -/
def parseDataLine (line : PyStr) : Option (PyStr × VariantRecord) :=
  if line = [] ∨ (ps ("#")).isPrefixOf line then none
  else
    let cols := pySplitChar '\t' line
    if cols.length < 8 then none
    else
      let chrom := cols.getD 0 []
      let pos_str := cols.getD 1 []
      let id_col := cols.getD 2 []
      let ref := cols.getD 3 []
      let alt := cols.getD 4 []
      let info_str := cols.getD 7 []
      match pyParseInt pos_str with
      | none => none
      | some pos =>
          let info := parse_info_field info_str
          let gene := pyUpper (pyStrip ((alookup info (ps ("GENE"))).getD []))
          let star := pyStrip ((alookup info (ps ("STAR"))).getD
                        ((alookup info (ps ("HAPLOTYPE"))).getD []))
          let rsid := extract_rsid id_col info
          if gene ∈ SUPPORTED_GENES then
            some (gene, { chrom := chrom, pos := pos, id := id_col, ref := ref,
                          alt := alt, gene := gene, star := star, rsid := rsid,
                          raw_info := info })
          else none

/-- One iteration of the `pure_python_parse` loop. -/
def parseStep (m : GeneMap) (line : PyStr) : GeneMap :=
  match parseDataLine line with
  | none => m
  | some (g, r) => appendRecord m g r

/-- `pure_python_parse`, over the decoded list of lines. -/
def pure_python_parse (lines : List PyStr) : GeneMap :=
  lines.foldl parseStep initGeneMap

/-- The required `#CHROM` header columns. -/
def REQUIRED_COLS : List PyStr :=
  [ps ("#CHROM"), ps ("POS"), ps ("ID"), ps ("REF"), ps ("ALT"),
   ps ("QUAL"), ps ("FILTER"), ps ("INFO")]

/-- The header-scanning loop of `validate_vcf_signature`: walks the lines
updating the fileformat flag; at a `#CHROM` line it checks the first 8
columns and stops; a non-`#` line also stops the scan.  Returns the pair
(fileformat flag, CHROM-header-found flag) or the validation error. -/
def headerScan : List PyStr → Bool → Except String (Bool × Bool)
  | [], hasFF => Except.ok (hasFF, false)
  | l :: rest, hasFF =>
      let line := pyStrip l
      let hasFF2 := hasFF || (ps ("##fileformat=VCF")).isPrefixOf line
      if (ps ("#CHROM")).isPrefixOf line then
        if (pySplitChar '\t' line).take 8 ≠ REQUIRED_COLS then
          Except.error "Invalid #CHROM header structure"
        else Except.ok (hasFF2, true)
      else if ¬ (ps ("#")).isPrefixOf line then Except.ok (hasFF2, false)
      else headerScan rest hasFF2

/-- `validate_vcf_signature`, over the decoded list of lines. -/
def validate_vcf_signature (lines : List PyStr) : Except String Unit :=
  if lines = [] then Except.error "Empty file"
  else
    match headerScan lines false with
    | Except.error e => Except.error e
    | Except.ok (hasFF, hasChrom) =>
        if ¬ hasFF then Except.error "Missing fileformat VCF header"
        else if ¬ hasChrom then Except.error "Missing #CHROM header line"
        else Except.ok ()

/-- `parse_vcf`: structural validation first, then the full parse (modelled
on the dependency-free backend, see the module header note). -/
def parse_vcf (lines : List PyStr) : Except String GeneMap :=
  match validate_vcf_signature lines with
  | Except.error e => Except.error e
  | Except.ok _ => Except.ok (pure_python_parse lines)

/-! ### pgx engine module: static tables -/

/-- `DRUG_GENE_MAP`. -/
def DRUG_GENE_MAP : List (PyStr × PyStr) :=
  [(ps ("CODEINE"), ps ("CYP2D6")),
   (ps ("WARFARIN"), ps ("CYP2C9")),
   (ps ("CLOPIDOGREL"), ps ("CYP2C19")),
   (ps ("SIMVASTATIN"), ps ("SLCO1B1")),
   (ps ("AZATHIOPRINE"), ps ("TPMT")),
   (ps ("FLUOROURACIL"), ps ("DPYD"))]

/-- `CYP2D6_PHENOTYPE`. -/
def CYP2D6_PHENOTYPE : List (PyStr × Phenotype) :=
  [(ps ("*1/*1"), Phenotype.NM), (ps ("*1/*2"), Phenotype.NM),
   (ps ("*2/*2"), Phenotype.NM), (ps ("*1/*4"), Phenotype.IM),
   (ps ("*1/*5"), Phenotype.IM), (ps ("*1/*41"), Phenotype.IM),
   (ps ("*2/*41"), Phenotype.IM), (ps ("*4/*41"), Phenotype.IM),
   (ps ("*4/*4"), Phenotype.PM), (ps ("*4/*5"), Phenotype.PM),
   (ps ("*5/*5"), Phenotype.PM), (ps ("*3/*4"), Phenotype.PM),
   (ps ("*3/*5"), Phenotype.PM), (ps ("*1/*1xN"), Phenotype.URM),
   (ps ("*2/*2xN"), Phenotype.URM), (ps ("*1/*2xN"), Phenotype.URM)]

/-- `CYP2C19_PHENOTYPE`. -/
def CYP2C19_PHENOTYPE : List (PyStr × Phenotype) :=
  [(ps ("*1/*1"), Phenotype.NM), (ps ("*1/*2"), Phenotype.IM),
   (ps ("*1/*3"), Phenotype.IM), (ps ("*2/*17"), Phenotype.IM),
   (ps ("*2/*2"), Phenotype.PM), (ps ("*2/*3"), Phenotype.PM),
   (ps ("*3/*3"), Phenotype.PM), (ps ("*1/*17"), Phenotype.RM),
   (ps ("*17/*17"), Phenotype.RM)]

/-- `CYP2C9_PHENOTYPE`. -/
def CYP2C9_PHENOTYPE : List (PyStr × Phenotype) :=
  [(ps ("*1/*1"), Phenotype.NM), (ps ("*1/*2"), Phenotype.IM),
   (ps ("*1/*3"), Phenotype.IM), (ps ("*2/*2"), Phenotype.IM),
   (ps ("*2/*3"), Phenotype.IM), (ps ("*3/*3"), Phenotype.PM)]

/-- `SLCO1B1_PHENOTYPE`. -/
def SLCO1B1_PHENOTYPE : List (PyStr × Phenotype) :=
  [(ps ("*1/*1"), Phenotype.NM), (ps ("*1/*1a"), Phenotype.NM),
   (ps ("*1/*1b"), Phenotype.NM), (ps ("*1/*5"), Phenotype.IM),
   (ps ("*1/*15"), Phenotype.IM), (ps ("*1a/*5"), Phenotype.IM),
   (ps ("*5/*5"), Phenotype.PM), (ps ("*15/*15"), Phenotype.PM),
   (ps ("*5/*15"), Phenotype.PM)]

/-- `TPMT_PHENOTYPE`. -/
def TPMT_PHENOTYPE : List (PyStr × Phenotype) :=
  [(ps ("*1/*1"), Phenotype.NM), (ps ("*1/*2"), Phenotype.IM),
   (ps ("*1/*3A"), Phenotype.IM), (ps ("*1/*3B"), Phenotype.IM),
   (ps ("*1/*3C"), Phenotype.IM), (ps ("*2/*3A"), Phenotype.PM),
   (ps ("*3A/*3A"), Phenotype.PM), (ps ("*3A/*3C"), Phenotype.PM),
   (ps ("*3B/*3C"), Phenotype.PM)]

/-- `DPYD_PHENOTYPE`. -/
def DPYD_PHENOTYPE : List (PyStr × Phenotype) :=
  [(ps ("*1/*1"), Phenotype.NM), (ps ("*1/*2A"), Phenotype.IM),
   (ps ("*1/*13"), Phenotype.IM), (ps ("*2A/*2A"), Phenotype.PM),
   (ps ("*13/*13"), Phenotype.PM), (ps ("*2A/*13"), Phenotype.PM)]

/-- `GENE_PHENOTYPE_TABLES`. -/
def GENE_PHENOTYPE_TABLES : List (PyStr × List (PyStr × Phenotype)) :=
  [(ps ("CYP2D6"), CYP2D6_PHENOTYPE),
   (ps ("CYP2C19"), CYP2C19_PHENOTYPE),
   (ps ("CYP2C9"), CYP2C9_PHENOTYPE),
   (ps ("SLCO1B1"), SLCO1B1_PHENOTYPE),
   (ps ("TPMT"), TPMT_PHENOTYPE),
   (ps ("DPYD"), DPYD_PHENOTYPE)]

/-- `RiskRule` dataclass. -/
structure RiskRule where
  risk_label : RiskLabel
  severity : Severity
  confidence : ℚ
  action : String
  dosage_guidance : String
  monitoring : String
  contraindication : Bool
  deriving DecidableEq, Repr

/-- `CODEINE_RULES`. -/
def CODEINE_RULES : List (Phenotype × RiskRule) :=
  [(Phenotype.PM,
    { risk_label := RiskLabel.INEFFECTIVE, severity := Severity.MODERATE,
      confidence := 0.92,
      action := "Avoid Codeine. Prescribe alternative analgesic.",
      dosage_guidance := "Do not prescribe codeine. CYP2D6 PM cannot convert codeine to morphine.",
      monitoring := "No monitoring needed — switch drug.",
      contraindication := true }),
   (Phenotype.IM,
    { risk_label := RiskLabel.ADJUST_DOSAGE, severity := Severity.LOW,
      confidence := 0.85,
      action := "Use with caution. Reduced analgesic effect expected.",
      dosage_guidance := "Start at 50–75% of standard dose. Reassess pain control at 24–48 h.",
      monitoring := "Monitor pain control and respiratory function.",
      contraindication := false }),
   (Phenotype.NM,
    { risk_label := RiskLabel.SAFE, severity := Severity.NONE,
      confidence := 0.95,
      action := "Standard codeine therapy appropriate.",
      dosage_guidance := "Use standard dose as per body weight and pain indication.",
      monitoring := "Routine monitoring.",
      contraindication := false }),
   (Phenotype.URM,
    { risk_label := RiskLabel.TOXIC, severity := Severity.CRITICAL,
      confidence := 0.97,
      action := "CONTRAINDICATED. Ultrapid morphine conversion risk.",
      dosage_guidance := "Do not prescribe codeine. Risk of life-threatening morphine toxicity.",
      monitoring := "If inadvertently given, monitor for respiratory depression immediately.",
      contraindication := true }),
   (Phenotype.RM,
    { risk_label := RiskLabel.TOXIC, severity := Severity.HIGH,
      confidence := 0.90,
      action := "Avoid. Elevated morphine levels likely.",
      dosage_guidance := "Do not prescribe codeine without specialist review.",
      monitoring := "Monitor for opioid toxicity symptoms.",
      contraindication := true })]

/-- `WARFARIN_RULES`. -/
def WARFARIN_RULES : List (Phenotype × RiskRule) :=
  [(Phenotype.PM,
    { risk_label := RiskLabel.ADJUST_DOSAGE, severity := Severity.HIGH,
      confidence := 0.93,
      action := "Significant dose reduction required. High bleeding risk.",
      dosage_guidance := "Start at 20–40% of standard warfarin dose. Titrate by INR.",
      monitoring := "Daily INR monitoring until stable. Then weekly.",
      contraindication := false }),
   (Phenotype.IM,
    { risk_label := RiskLabel.ADJUST_DOSAGE, severity := Severity.MODERATE,
      confidence := 0.88,
      action := "Reduce initial dose by 25–50%.",
      dosage_guidance := "Use CPIC warfarin dosing algorithm. Target INR 2.0–3.0.",
      monitoring := "INR monitoring every 3–5 days during initiation.",
      contraindication := false }),
   (Phenotype.NM,
    { risk_label := RiskLabel.SAFE, severity := Severity.NONE,
      confidence := 0.94,
      action := "Standard warfarin dosing appropriate.",
      dosage_guidance := "Use standard dosing algorithm (5 mg/day initiation).",
      monitoring := "Routine INR monitoring (weekly until stable).",
      contraindication := false }),
   (Phenotype.RM,
    { risk_label := RiskLabel.SAFE, severity := Severity.LOW,
      confidence := 0.80,
      action := "Standard dosing. Monitor for reduced effect.",
      dosage_guidance := "Use standard initiation dose. Adjust per INR response.",
      monitoring := "Routine INR monitoring.",
      contraindication := false })]

/-- `CLOPIDOGREL_RULES`. -/
def CLOPIDOGREL_RULES : List (Phenotype × RiskRule) :=
  [(Phenotype.PM,
    { risk_label := RiskLabel.INEFFECTIVE, severity := Severity.HIGH,
      confidence := 0.95,
      action := "Clopidogrel likely ineffective. Switch to alternative antiplatelet.",
      dosage_guidance := "Do not rely on clopidogrel for platelet inhibition. CYP2C19 PM cannot activate prodrug.",
      monitoring := "If used, monitor platelet reactivity (P2Y12 assay).",
      contraindication := true }),
   (Phenotype.IM,
    { risk_label := RiskLabel.ADJUST_DOSAGE, severity := Severity.MODERATE,
      confidence := 0.87,
      action := "Reduced clopidogrel efficacy. Consider alternative.",
      dosage_guidance := "Consider doubling maintenance dose (150 mg/day) or switch to ticagrelor.",
      monitoring := "Monitor platelet function test at 2 weeks.",
      contraindication := false }),
   (Phenotype.NM,
    { risk_label := RiskLabel.SAFE, severity := Severity.NONE,
      confidence := 0.95,
      action := "Clopidogrel therapy appropriate at standard dose.",
      dosage_guidance := "75 mg/day maintenance dose. Standard loading 300–600 mg.",
      monitoring := "Routine clinical monitoring.",
      contraindication := false }),
   (Phenotype.RM,
    { risk_label := RiskLabel.SAFE, severity := Severity.NONE,
      confidence := 0.88,
      action := "Standard or enhanced clopidogrel efficacy expected.",
      dosage_guidance := "Standard 75 mg/day dose.",
      monitoring := "Routine monitoring.",
      contraindication := false })]

/-- `SIMVASTATIN_RULES`. -/
def SIMVASTATIN_RULES : List (Phenotype × RiskRule) :=
  [(Phenotype.PM,
    { risk_label := RiskLabel.TOXIC, severity := Severity.HIGH,
      confidence := 0.91,
      action := "High myopathy risk. Avoid simvastatin 40–80 mg. Consider alternative statin.",
      dosage_guidance := "Use simvastatin ≤20 mg/day only if no alternative, or switch to pravastatin/rosuvastatin.",
      monitoring := "Monitor CK levels. Educate patient on myopathy symptoms.",
      contraindication := true }),
   (Phenotype.IM,
    { risk_label := RiskLabel.ADJUST_DOSAGE, severity := Severity.MODERATE,
      confidence := 0.86,
      action := "Moderate myopathy risk. Dose limit recommended.",
      dosage_guidance := "Limit simvastatin to 20 mg/day. Prefer alternative statin.",
      monitoring := "Monitor CK levels at 4–8 weeks.",
      contraindication := false }),
   (Phenotype.NM,
    { risk_label := RiskLabel.SAFE, severity := Severity.NONE,
      confidence := 0.93,
      action := "Standard simvastatin therapy appropriate.",
      dosage_guidance := "Standard dose (20–40 mg/day).",
      monitoring := "Routine monitoring of liver enzymes and CK.",
      contraindication := false })]

/-- `AZATHIOPRINE_RULES`. -/
def AZATHIOPRINE_RULES : List (Phenotype × RiskRule) :=
  [(Phenotype.PM,
    { risk_label := RiskLabel.TOXIC, severity := Severity.CRITICAL,
      confidence := 0.98,
      action := "CONTRAINDICATED. Severe myelosuppression risk.",
      dosage_guidance := "Do not prescribe azathioprine. Risk of life-threatening bone marrow suppression.",
      monitoring := "If inadvertent exposure, daily CBC for at least 4 weeks.",
      contraindication := true }),
   (Phenotype.IM,
    { risk_label := RiskLabel.ADJUST_DOSAGE, severity := Severity.HIGH,
      confidence := 0.90,
      action := "Start at 30–50% of normal dose. Monitor closely.",
      dosage_guidance := "Reduce starting dose to 30–50% of standard. Titrate slowly based on CBC.",
      monitoring := "Weekly CBC for first 2 months, then monthly.",
      contraindication := false }),
   (Phenotype.NM,
    { risk_label := RiskLabel.SAFE, severity := Severity.NONE,
      confidence := 0.95,
      action := "Standard azathioprine dosing appropriate.",
      dosage_guidance := "Standard dose (1.5–2.5 mg/kg/day).",
      monitoring := "Routine CBC monitoring every 1–3 months.",
      contraindication := false })]

/-- `FLUOROURACIL_RULES`. -/
def FLUOROURACIL_RULES : List (Phenotype × RiskRule) :=
  [(Phenotype.PM,
    { risk_label := RiskLabel.TOXIC, severity := Severity.CRITICAL,
      confidence := 0.97,
      action := "CONTRAINDICATED. Severe fluoropyrimidine toxicity risk.",
      dosage_guidance := "Do not administer 5-FU or capecitabine. DPYD PM at extreme risk of fatal toxicity.",
      monitoring := "If inadvertently given, immediate discontinuation and intensive supportive care.",
      contraindication := true }),
   (Phenotype.IM,
    { risk_label := RiskLabel.ADJUST_DOSAGE, severity := Severity.HIGH,
      confidence := 0.92,
      action := "50% dose reduction required. Close toxicity monitoring.",
      dosage_guidance := "Reduce 5-FU starting dose by 50%. Dose-adjust based on toxicity assessment.",
      monitoring := "Weekly toxicity assessment (CBC, mucositis, diarrhea) for first 2 cycles.",
      contraindication := false }),
   (Phenotype.NM,
    { risk_label := RiskLabel.SAFE, severity := Severity.NONE,
      confidence := 0.94,
      action := "Standard fluorouracil therapy appropriate.",
      dosage_guidance := "Standard dosing per oncology protocol.",
      monitoring := "Routine toxicity monitoring per protocol.",
      contraindication := false })]

/-- `DRUG_RULES`. -/
def DRUG_RULES : List (PyStr × List (Phenotype × RiskRule)) :=
  [(ps ("CODEINE"), CODEINE_RULES),
   (ps ("WARFARIN"), WARFARIN_RULES),
   (ps ("CLOPIDOGREL"), CLOPIDOGREL_RULES),
   (ps ("SIMVASTATIN"), SIMVASTATIN_RULES),
   (ps ("AZATHIOPRINE"), AZATHIOPRINE_RULES),
   (ps ("FLUOROURACIL"), FLUOROURACIL_RULES)]

/-- `ALTERNATIVES`. -/
def ALTERNATIVES : List (PyStr × List AlternativeMedication) :=
  [(ps ("CODEINE"),
    [{ name := "Tramadol (with caution)",
       rationale := "Partially metabolized by CYP2D6 but dual mechanism via norepinephrine/serotonin reuptake inhibition maintains efficacy in PM.",
       pgx_advantage := "Less dependent on CYP2D6 for analgesic effect than codeine." },
     { name := "Acetaminophen (Paracetamol)",
       rationale := "No CYP2D6 metabolism. Safe and effective for mild-to-moderate pain.",
       pgx_advantage := "Pharmacogenomically neutral — not affected by CYP2D6 phenotype." },
     { name := "NSAIDs (e.g., Ibuprofen)",
       rationale := "Non-opioid analgesic with no pharmacogenomic concern for CYP2D6.",
       pgx_advantage := "Independent of CYP2D6 metabolizer status." },
     { name := "Morphine (direct opioid)",
       rationale := "Does not require CYP2D6 activation — acts directly on opioid receptors.",
       pgx_advantage := "Bypasses CYP2D6 prodrug conversion step entirely." }]),
   (ps ("WARFARIN"),
    [{ name := "Apixaban (Eliquis)",
       rationale := "Direct oral anticoagulant (DOAC) not metabolized by CYP2C9. No PGx titration needed.",
       pgx_advantage := "Not affected by CYP2C9 or VKORC1 polymorphisms." },
     { name := "Rivaroxaban (Xarelto)",
       rationale := "Factor Xa inhibitor; predictable pharmacokinetics not dependent on CYP2C9.",
       pgx_advantage := "Pharmacogenomically neutral anticoagulant." },
     { name := "Dabigatran (Pradaxa)",
       rationale := "Direct thrombin inhibitor. No CYP2C9 involvement in metabolism.",
       pgx_advantage := "Fixed dosing without genetic dose adjustment." }]),
   (ps ("CLOPIDOGREL"),
    [{ name := "Ticagrelor (Brilinta)",
       rationale := "Direct-acting P2Y12 inhibitor. Does not require CYP2C19 bioactivation.",
       pgx_advantage := "Fully effective regardless of CYP2C19 metabolizer status." },
     { name := "Prasugrel (Effient)",
       rationale := "Less dependent on CYP2C19 for activation than clopidogrel.",
       pgx_advantage := "Stronger and more consistent platelet inhibition in CYP2C19 PM." }]),
   (ps ("SIMVASTATIN"),
    [{ name := "Pravastatin",
       rationale := "Not significantly transported by SLCO1B1, lower myopathy risk.",
       pgx_advantage := "Minimal SLCO1B1-related statin accumulation." },
     { name := "Rosuvastatin (low dose)",
       rationale := "Lower myopathy risk than simvastatin at equivalent LDL-lowering doses.",
       pgx_advantage := "Reduced SLCO1B1-mediated hepatic uptake variability." },
     { name := "Fluvastatin",
       rationale := "Primarily CYP2C9-metabolized; SLCO1B1 impact minimal.",
       pgx_advantage := "Low SLCO1B1 transporter affinity." }]),
   (ps ("AZATHIOPRINE"),
    [{ name := "Mycophenolate Mofetil (MMF)",
       rationale := "Immunosuppressant not metabolized via TPMT pathway. Safe in TPMT PM.",
       pgx_advantage := "Completely independent of TPMT enzyme activity." },
     { name := "Methotrexate (low dose)",
       rationale := "Antifolate immunosuppressant with no TPMT dependency.",
       pgx_advantage := "TPMT-independent mechanism of action." },
     { name := "Ciclosporin",
       rationale := "Calcineurin inhibitor with no TPMT involvement.",
       pgx_advantage := "Not affected by TPMT polymorphisms." }]),
   (ps ("FLUOROURACIL"),
    [{ name := "Irinotecan",
       rationale := "Topoisomerase I inhibitor; different metabolic pathway (UGT1A1), not DPYD.",
       pgx_advantage := "Does not rely on DPYD for detoxification — safe for DPYD-deficient patients." },
     { name := "Capecitabine (50% dose-adjusted)",
       rationale := "Prodrug of 5-FU; same DPYD concern but allows more precise oral dosing with dose reduction.",
       pgx_advantage := "Enables 50% dose reduction while maintaining some efficacy — only for IM, not PM." },
     { name := "Gemcitabine",
       rationale := "Nucleoside analog with different enzymatic pathway from fluoropyrimidines.",
       pgx_advantage := "Independent of DPYD — no risk of fluoropyrimidine-related toxicity." }])]

/-! ### pgx engine module: inference and analysis -/

/-- The filtered star-allele tag list of `_infer_diplotype`:
`[v.star for v in variants if v.star and v.star != "."]`. -/
def starTags (variants : List VariantRecord) : List PyStr :=
  (variants.map VariantRecord.star).filter
    (fun s => !s.isEmpty && !(s == ps (".")))

/-- `sorted(set(...))` on Python strings: the distinct elements in
ascending lexicographic (code point) order. -/
def sortedUnique (l : List PyStr) : List PyStr :=
  List.insertionSort pyLeR l.dedup

/-- `_infer_diplotype` (its `gene` parameter is unused in the source and
dropped here). -/
def inferDiplotype (variants : List VariantRecord) : PyStr :=
  match sortedUnique (starTags variants) with
  | [] => ps ("*1/*1")
  | [t] => t ++ ps ("/") ++ t
  | t1 :: t2 :: _ => t1 ++ ps ("/") ++ t2

/-- `_lookup_phenotype`: exact match, then swapped orientation, then
upper-cased match, else Unknown. -/
def lookupPhenotype (gene : PyStr) (diplotype : PyStr) : Phenotype :=
  let table := (alookup GENE_PHENOTYPE_TABLES gene).getD []
  match alookup table diplotype with
  | some p => p
  | none =>
      let parts := pySplitChar '/' diplotype
      let swapped : Option Phenotype :=
        match parts with
        | [a, b] => alookup table (b ++ ps ("/") ++ a)
        | _ => none
      match swapped with
      | some p => p
      | none =>
          match alookup table (pyUpper diplotype) with
          | some p => p
          | none => Phenotype.UNKNOWN

/-- `PgxEngineResult` dataclass. -/
structure PgxEngineResult where
  risk_assessment : RiskAssessment
  pgx_profile : PharmacogenomicProfile
  clinical_recommendation : ClinicalRecommendation
  alternative_medications : List AlternativeMedication
  deriving DecidableEq, Repr

/-- `_unknown_result` (its `drug` parameter is unused in the source body). -/
def unknownResult (drug : PyStr) (gene : PyStr := ps ("UNKNOWN"))
    (diplotype : PyStr := ps ("*1/*1"))
    (phenotype : Phenotype := Phenotype.UNKNOWN)
    (detected : List DetectedVariant := []) : PgxEngineResult :=
  let _ := drug
  { risk_assessment :=
      { risk_label := RiskLabel.UNKNOWN, confidence_score := 0.0,
        severity := Severity.NONE },
    pgx_profile :=
      { primary_gene := gene, diplotype := diplotype, phenotype := phenotype,
        detected_variants := detected },
    clinical_recommendation :=
      { action := "Insufficient pharmacogenomic data. Use standard clinical judgment.",
        dosage_guidance := "No genotype-guided dosage adjustment available.",
        monitoring := "Standard monitoring per drug labelling.",
        contraindication := false,
        guideline_source := "CPIC" },
    alternative_medications := [] }

/-- The detected-variant deduplication loop of `analyze_drug`: key is
(rsid-or-id, star), kept only when the key is new and rsid or star is
truthy, preserving first-seen order. -/
def detectedVariants (variants : List VariantRecord) : List DetectedVariant :=
  (variants.foldl
    (fun (acc : List DetectedVariant × List (PyStr × PyStr)) v =>
      let key := ((if v.rsid ≠ [] then v.rsid else v.id), v.star)
      if key ∉ acc.2 ∧ (v.rsid ≠ [] ∨ v.star ≠ []) then
        (acc.1 ++ [{ rsid := if v.rsid ≠ [] then v.rsid
                             else if v.id ≠ [] then v.id else ps ("."),
                     star := if v.star ≠ [] then v.star else ps (".") }],
         acc.2 ++ [key])
      else acc)
    ([], [])).1

/-- The supported-drug branch of `analyze_drug` (everything after the gene
lookup), on the variants of the primary gene. -/
def analyzeCore (drug_upper gene : PyStr) (variants : List VariantRecord) :
    PgxEngineResult :=
  let diplotype := inferDiplotype variants
  let phenotype := lookupPhenotype gene diplotype
  let detected := detectedVariants variants
  let rules := (alookup DRUG_RULES drug_upper).getD []
  match alookup rules phenotype with
  | none => unknownResult drug_upper gene diplotype phenotype detected
  | some rule =>
      if phenotype = Phenotype.UNKNOWN then
        unknownResult drug_upper gene diplotype phenotype detected
      else
        { risk_assessment :=
            { risk_label := rule.risk_label,
              confidence_score := rule.confidence,
              severity := rule.severity },
          pgx_profile :=
            { primary_gene := gene, diplotype := diplotype,
              phenotype := phenotype, detected_variants := detected },
          clinical_recommendation :=
            { action := rule.action, dosage_guidance := rule.dosage_guidance,
              monitoring := rule.monitoring,
              contraindication := rule.contraindication,
              guideline_source := "CPIC" },
          alternative_medications :=
            if rule.risk_label ≠ RiskLabel.SAFE then
              (alookup ALTERNATIVES drug_upper).getD []
            else [] }

/-- `drug.strip().upper()`. -/
def normDrug (drug : PyStr) : PyStr := pyUpper (pyStrip drug)

/-- `analyze_drug`. -/
def analyzeDrug (drug : PyStr) (gene_variants : GeneMap) : PgxEngineResult :=
  let drug_upper := normDrug drug
  match alookup DRUG_GENE_MAP drug_upper with
  | none => unknownResult drug_upper
  | some primary_gene =>
      analyzeCore drug_upper primary_gene (getGene gene_variants primary_gene)

/-! ### General lemmas about the embedding -/

lemma analyzeDrug_of_unsupported (drug : PyStr) (gv : GeneMap)
    (h : alookup DRUG_GENE_MAP (normDrug drug) = none) :
    analyzeDrug drug gv = unknownResult (normDrug drug) := by
  simp only [analyzeDrug, h]

lemma analyzeDrug_of_supported (drug g : PyStr) (gv : GeneMap)
    (h : alookup DRUG_GENE_MAP (normDrug drug) = some g) :
    analyzeDrug drug gv = analyzeCore (normDrug drug) g (getGene gv g) := by
  simp only [analyzeDrug, h]

lemma analyzeCore_of_degraded (du g : PyStr) (vs : List VariantRecord)
    (h : lookupPhenotype g (inferDiplotype vs) = Phenotype.UNKNOWN ∨
         alookup ((alookup DRUG_RULES du).getD [])
           (lookupPhenotype g (inferDiplotype vs)) = none) :
    analyzeCore du g vs =
      unknownResult du g (inferDiplotype vs)
        (lookupPhenotype g (inferDiplotype vs)) (detectedVariants vs) := by
  rcases hr : alookup ((alookup DRUG_RULES du).getD [])
      (lookupPhenotype g (inferDiplotype vs)) with _ | rule
  · simp only [analyzeCore, hr]
  · rcases h with h | h
    · rw [h] at hr
      simp [analyzeCore, h, hr]
    · rw [h] at hr; cases hr

lemma analyzeCore_of_rule (du g : PyStr) (vs : List VariantRecord)
    (rule : RiskRule)
    (hr : alookup ((alookup DRUG_RULES du).getD [])
           (lookupPhenotype g (inferDiplotype vs)) = some rule)
    (hph : lookupPhenotype g (inferDiplotype vs) ≠ Phenotype.UNKNOWN) :
    analyzeCore du g vs =
      { risk_assessment :=
          { risk_label := rule.risk_label,
            confidence_score := rule.confidence,
            severity := rule.severity },
        pgx_profile :=
          { primary_gene := g, diplotype := inferDiplotype vs,
            phenotype := lookupPhenotype g (inferDiplotype vs),
            detected_variants := detectedVariants vs },
        clinical_recommendation :=
          { action := rule.action, dosage_guidance := rule.dosage_guidance,
            monitoring := rule.monitoring,
            contraindication := rule.contraindication,
            guideline_source := "CPIC" },
        alternative_medications :=
          if rule.risk_label ≠ RiskLabel.SAFE then
            (alookup ALTERNATIVES du).getD []
          else [] } := by
  simp only [analyzeCore, hr, if_neg hph]

/-! ### Claim C2 -/

/-- C2: for every drug whose normalized name is not in the supported drug
map, and for every supported drug whose resolved phenotype is Unknown or
has no risk-rule entry, `analyze_drug` returns the fully populated Unknown
outcome: risk label Unknown, confidence exactly 0.0, severity none,
contraindication false, the generic standard-clinical-judgment
recommendation, and an empty alternatives list. -/
theorem analyzeDrug_unknown_degradation (drug : PyStr) (gv : GeneMap)
    (h : alookup DRUG_GENE_MAP (normDrug drug) = none ∨
      ∃ g, alookup DRUG_GENE_MAP (normDrug drug) = some g ∧
        (lookupPhenotype g (inferDiplotype (getGene gv g)) = Phenotype.UNKNOWN ∨
         alookup ((alookup DRUG_RULES (normDrug drug)).getD [])
           (lookupPhenotype g (inferDiplotype (getGene gv g))) = none)) :
    (analyzeDrug drug gv).risk_assessment.risk_label = RiskLabel.UNKNOWN ∧
    (analyzeDrug drug gv).risk_assessment.confidence_score = 0 ∧
    (analyzeDrug drug gv).risk_assessment.severity = Severity.NONE ∧
    (analyzeDrug drug gv).clinical_recommendation.contraindication = false ∧
    (analyzeDrug drug gv).clinical_recommendation.action =
      "Insufficient pharmacogenomic data. Use standard clinical judgment." ∧
    (analyzeDrug drug gv).alternative_medications = [] := by
  rcases h with h | ⟨g, hg, hcase⟩
  · rw [analyzeDrug_of_unsupported drug gv h]
    refine ⟨rfl, ?_, rfl, rfl, rfl, rfl⟩
    norm_num [unknownResult]
  · rw [analyzeDrug_of_supported drug g gv hg,
        analyzeCore_of_degraded (normDrug drug) g (getGene gv g) hcase]
    refine ⟨rfl, ?_, rfl, rfl, rfl, rfl⟩
    norm_num [unknownResult]

/-- Witness for C2 at the unsupported drug `ASPIRIN` on the initial
gene map. -/
theorem analyzeDrug_unknown_degradation_witness :
    (analyzeDrug (ps ("ASPIRIN")) initGeneMap).risk_assessment.risk_label =
        RiskLabel.UNKNOWN ∧
    (analyzeDrug (ps ("ASPIRIN")) initGeneMap).risk_assessment.confidence_score = 0 ∧
    (analyzeDrug (ps ("ASPIRIN")) initGeneMap).risk_assessment.severity =
        Severity.NONE ∧
    (analyzeDrug (ps ("ASPIRIN")) initGeneMap).clinical_recommendation.contraindication =
        false ∧
    (analyzeDrug (ps ("ASPIRIN")) initGeneMap).clinical_recommendation.action =
      "Insufficient pharmacogenomic data. Use standard clinical judgment." ∧
    (analyzeDrug (ps ("ASPIRIN")) initGeneMap).alternative_medications = [] :=
  analyzeDrug_unknown_degradation (ps ("ASPIRIN")) initGeneMap
    (Or.inl (by decide))

/-! ### Claim C10 -/

/-- C10: on the Unknown degradation path for an unsupported drug the
returned profile carries the fixed placeholders: primary gene `UNKNOWN`,
diplotype `*1/*1`, phenotype Unknown and no detected variants, although no
gene was examined; its diplotype field is identical to the one of an
affirmative no-variant finding (such as `SIMVASTATIN` on an empty gene
map). -/
theorem unknown_profile_placeholders (drug : PyStr) (gv : GeneMap)
    (h : alookup DRUG_GENE_MAP (normDrug drug) = none) :
    (analyzeDrug drug gv).pgx_profile.primary_gene = ps ("UNKNOWN") ∧
    (analyzeDrug drug gv).pgx_profile.diplotype = ps ("*1/*1") ∧
    (analyzeDrug drug gv).pgx_profile.phenotype = Phenotype.UNKNOWN ∧
    (analyzeDrug drug gv).pgx_profile.detected_variants = [] ∧
    (analyzeDrug drug gv).pgx_profile.diplotype =
      (analyzeDrug (ps ("SIMVASTATIN")) initGeneMap).pgx_profile.diplotype := by
  rw [analyzeDrug_of_unsupported drug gv h]
  refine ⟨rfl, rfl, rfl, rfl, ?_⟩
  show ps ("*1/*1") =
    (analyzeDrug (ps ("SIMVASTATIN")) initGeneMap).pgx_profile.diplotype
  decide

/-- Witness for C10 at the unsupported drug `ibuprofen` (normalization
upper-cases it; it is still unsupported). -/
theorem unknown_profile_placeholders_witness :
    (analyzeDrug (ps ("ibuprofen")) initGeneMap).pgx_profile.primary_gene =
        ps ("UNKNOWN") ∧
    (analyzeDrug (ps ("ibuprofen")) initGeneMap).pgx_profile.diplotype =
        ps ("*1/*1") ∧
    (analyzeDrug (ps ("ibuprofen")) initGeneMap).pgx_profile.phenotype =
        Phenotype.UNKNOWN ∧
    (analyzeDrug (ps ("ibuprofen")) initGeneMap).pgx_profile.detected_variants = [] ∧
    (analyzeDrug (ps ("ibuprofen")) initGeneMap).pgx_profile.diplotype =
      (analyzeDrug (ps ("SIMVASTATIN")) initGeneMap).pgx_profile.diplotype :=
  unknown_profile_placeholders (ps ("ibuprofen")) initGeneMap (by decide)

/-! ### Claim C8 -/

lemma no_unknown_rule (du : PyStr) :
    alookup ((alookup DRUG_RULES du).getD []) Phenotype.UNKNOWN = none := by
  simp only [DRUG_RULES, alookup]
  split_ifs <;> decide

/-- C8: whenever a matching risk rule exists, a non-Safe risk label attaches
the drug's full static alternatives catalog entry (no phenotype filtering),
and a Safe risk label yields an empty alternatives list. -/
theorem alternatives_iff_not_safe (drug : PyStr) (gv : GeneMap) (g : PyStr)
    (rule : RiskRule)
    (hg : alookup DRUG_GENE_MAP (normDrug drug) = some g)
    (hr : alookup ((alookup DRUG_RULES (normDrug drug)).getD [])
            (lookupPhenotype g (inferDiplotype (getGene gv g))) = some rule) :
    (rule.risk_label ≠ RiskLabel.SAFE →
       (analyzeDrug drug gv).alternative_medications =
         (alookup ALTERNATIVES (normDrug drug)).getD []) ∧
    (rule.risk_label = RiskLabel.SAFE →
       (analyzeDrug drug gv).alternative_medications = []) := by
  have hph : lookupPhenotype g (inferDiplotype (getGene gv g)) ≠
      Phenotype.UNKNOWN := by
    intro he
    rw [he, no_unknown_rule] at hr
    cases hr
  rw [analyzeDrug_of_supported drug g gv hg,
      analyzeCore_of_rule (normDrug drug) g (getGene gv g) rule hr hph]
  constructor
  · intro hns
    simp [hns]
  · intro hs
    simp [hs]

/-- Witness for C8: `WARFARIN` on the empty gene map resolves to the Safe
NM rule, so the alternatives list is empty. -/
theorem alternatives_iff_not_safe_witness :
    (analyzeDrug (ps ("WARFARIN")) initGeneMap).alternative_medications = [] :=
  (alternatives_iff_not_safe (ps ("WARFARIN")) initGeneMap (ps ("CYP2C9")) _
    (by decide) rfl).2 rfl

/-! ### Claim C6 -/

lemma drug_gene_cases (du g : PyStr) (h : alookup DRUG_GENE_MAP du = some g) :
    (du = ps ("CODEINE") ∧ g = ps ("CYP2D6")) ∨
    (du = ps ("WARFARIN") ∧ g = ps ("CYP2C9")) ∨
    (du = ps ("CLOPIDOGREL") ∧ g = ps ("CYP2C19")) ∨
    (du = ps ("SIMVASTATIN") ∧ g = ps ("SLCO1B1")) ∨
    (du = ps ("AZATHIOPRINE") ∧ g = ps ("TPMT")) ∨
    (du = ps ("FLUOROURACIL") ∧ g = ps ("DPYD")) := by
  simp only [DRUG_GENE_MAP, alookup] at h
  split_ifs at h with h1 h2 h3 h4 h5 h6
  · exact Or.inl ⟨h1.symm, (Option.some.inj h).symm⟩
  · exact Or.inr (Or.inl ⟨h2.symm, (Option.some.inj h).symm⟩)
  · exact Or.inr (Or.inr (Or.inl ⟨h3.symm, (Option.some.inj h).symm⟩))
  · exact Or.inr (Or.inr (Or.inr (Or.inl ⟨h4.symm, (Option.some.inj h).symm⟩)))
  · exact Or.inr (Or.inr (Or.inr (Or.inr (Or.inl
      ⟨h5.symm, (Option.some.inj h).symm⟩))))
  · exact Or.inr (Or.inr (Or.inr (Or.inr (Or.inr
      ⟨h6.symm, (Option.some.inj h).symm⟩))))

lemma infer_of_no_tags (vs : List VariantRecord) (hz : starTags vs = []) :
    inferDiplotype vs = ps ("*1/*1") := by
  simp only [inferDiplotype, hz]
  rfl

lemma analyzeCore_no_variants (du g : PyStr) (vs : List VariantRecord)
    (rule : RiskRule) (hz : starTags vs = [])
    (hph : lookupPhenotype g (ps ("*1/*1")) = Phenotype.NM)
    (hr : alookup ((alookup DRUG_RULES du).getD []) Phenotype.NM = some rule)
    (hsafe : rule.risk_label = RiskLabel.SAFE)
    (hcontra : rule.contraindication = false) :
    (analyzeCore du g vs).pgx_profile.diplotype = ps ("*1/*1") ∧
    (analyzeCore du g vs).pgx_profile.phenotype = Phenotype.NM ∧
    (analyzeCore du g vs).risk_assessment =
      { risk_label := rule.risk_label, confidence_score := rule.confidence,
        severity := rule.severity } ∧
    (analyzeCore du g vs).clinical_recommendation.contraindication = false ∧
    (analyzeCore du g vs).alternative_medications = [] := by
  have hdip := infer_of_no_tags vs hz
  have hr' : alookup ((alookup DRUG_RULES du).getD [])
      (lookupPhenotype g (inferDiplotype vs)) = some rule := by
    rw [hdip, hph]; exact hr
  rw [analyzeCore_of_rule du g vs rule hr' (by rw [hdip, hph]; decide)]
  refine ⟨hdip, ?_, rfl, hcontra, ?_⟩
  · rw [hdip]; exact hph
  · simp [hsafe]

/-- C6: for every supported drug, zero usable star-allele tags for its
mapped gene yield diplotype `*1/*1`, phenotype NM, the drug's Safe NM-tier
rule, contraindication false and an empty alternatives list. -/
theorem no_variants_nm_safe (drug : PyStr) (gv : GeneMap) (g : PyStr)
    (hg : alookup DRUG_GENE_MAP (normDrug drug) = some g)
    (hz : starTags (getGene gv g) = []) :
    ∃ rule,
      alookup ((alookup DRUG_RULES (normDrug drug)).getD [])
          Phenotype.NM = some rule ∧
      rule.risk_label = RiskLabel.SAFE ∧
      (analyzeDrug drug gv).pgx_profile.diplotype = ps ("*1/*1") ∧
      (analyzeDrug drug gv).pgx_profile.phenotype = Phenotype.NM ∧
      (analyzeDrug drug gv).risk_assessment =
        { risk_label := rule.risk_label, confidence_score := rule.confidence,
          severity := rule.severity } ∧
      (analyzeDrug drug gv).clinical_recommendation.contraindication = false ∧
      (analyzeDrug drug gv).alternative_medications = [] := by
  rw [analyzeDrug_of_supported drug g gv hg]
  rcases drug_gene_cases (normDrug drug) g hg with
      ⟨hdu, hgg⟩ | ⟨hdu, hgg⟩ | ⟨hdu, hgg⟩ | ⟨hdu, hgg⟩ | ⟨hdu, hgg⟩ | ⟨hdu, hgg⟩ <;>
    rw [hgg] at hz <;> rw [hdu, hgg] <;>
    exact ⟨_, rfl, by decide,
      analyzeCore_no_variants _ _ _ _ hz (by decide) rfl (by decide) (by decide)⟩

/-- Witness for C6: the end-to-end scenario of the specification — an
empty-variant gene map queried for `SIMVASTATIN`. -/
theorem no_variants_nm_safe_witness :
    ∃ rule,
      alookup ((alookup DRUG_RULES (normDrug (ps ("SIMVASTATIN")))).getD [])
          Phenotype.NM = some rule ∧
      rule.risk_label = RiskLabel.SAFE ∧
      (analyzeDrug (ps ("SIMVASTATIN")) initGeneMap).pgx_profile.diplotype =
          ps ("*1/*1") ∧
      (analyzeDrug (ps ("SIMVASTATIN")) initGeneMap).pgx_profile.phenotype =
          Phenotype.NM ∧
      (analyzeDrug (ps ("SIMVASTATIN")) initGeneMap).risk_assessment =
        { risk_label := rule.risk_label, confidence_score := rule.confidence,
          severity := rule.severity } ∧
      (analyzeDrug (ps ("SIMVASTATIN")) initGeneMap).clinical_recommendation.contraindication =
          false ∧
      (analyzeDrug (ps ("SIMVASTATIN")) initGeneMap).alternative_medications = [] :=
  no_variants_nm_safe (ps ("SIMVASTATIN")) initGeneMap (ps ("SLCO1B1"))
    (by decide) (by decide)

/-! ### Claim C7 -/

/-- C7: with exactly one CYP2D6 variant record carrying star tag `*4`,
`analyze_drug` for CODEINE yields diplotype `*4/*4`, phenotype PM, risk
label Ineffective, contraindication true, and a non-empty alternatives
list containing the acetaminophen entry. -/
theorem codeine_pm_scenario (gv : GeneMap) (v : VariantRecord)
    (h1 : getGene gv (ps ("CYP2D6")) = [v]) (h2 : v.star = ps ("*4")) :
    (analyzeDrug (ps ("CODEINE")) gv).pgx_profile.diplotype = ps ("*4/*4") ∧
    (analyzeDrug (ps ("CODEINE")) gv).pgx_profile.phenotype = Phenotype.PM ∧
    (analyzeDrug (ps ("CODEINE")) gv).risk_assessment.risk_label =
        RiskLabel.INEFFECTIVE ∧
    (analyzeDrug (ps ("CODEINE")) gv).clinical_recommendation.contraindication =
        true ∧
    (analyzeDrug (ps ("CODEINE")) gv).alternative_medications ≠ [] ∧
    ∃ alt ∈ (analyzeDrug (ps ("CODEINE")) gv).alternative_medications,
      alt.name = "Acetaminophen (Paracetamol)" := by
  have hg : alookup DRUG_GENE_MAP (normDrug (ps ("CODEINE"))) =
      some (ps ("CYP2D6")) := by decide
  rw [analyzeDrug_of_supported (ps ("CODEINE")) (ps ("CYP2D6")) gv hg, h1]
  have hst : starTags [v] = [ps ("*4")] := by
    simp [starTags, h2]
    decide
  have hdip : inferDiplotype [v] = ps ("*4/*4") := by
    simp only [inferDiplotype, hst]
    rfl
  have hr : alookup ((alookup DRUG_RULES (normDrug (ps ("CODEINE")))).getD [])
      (lookupPhenotype (ps ("CYP2D6")) (inferDiplotype [v])) =
      some { risk_label := RiskLabel.INEFFECTIVE, severity := Severity.MODERATE,
             confidence := 0.92,
             action := "Avoid Codeine. Prescribe alternative analgesic.",
             dosage_guidance := "Do not prescribe codeine. CYP2D6 PM cannot convert codeine to morphine.",
             monitoring := "No monitoring needed — switch drug.",
             contraindication := true } := by
    rw [hdip]
    rfl
  rw [analyzeCore_of_rule (normDrug (ps ("CODEINE"))) (ps ("CYP2D6")) [v] _ hr
      (by rw [hdip]; decide)]
  refine ⟨hdip, ?_, rfl, rfl, ?_, ?_⟩
  · show lookupPhenotype (ps ("CYP2D6")) (inferDiplotype [v]) = Phenotype.PM
    rw [hdip]
    decide
  · show ((alookup ALTERNATIVES (normDrug (ps ("CODEINE")))).getD []) ≠
      ([] : List AlternativeMedication)
    decide
  · refine ⟨{ name := "Acetaminophen (Paracetamol)",
              rationale := "No CYP2D6 metabolism. Safe and effective for mild-to-moderate pain.",
              pgx_advantage := "Pharmacogenomically neutral — not affected by CYP2D6 phenotype." },
            ?_, rfl⟩
    show _ ∈ ((alookup ALTERNATIVES (normDrug (ps ("CODEINE")))).getD [])
    decide

/-- The one-variant CYP2D6 `*4` input file of the specification's
end-to-end scenario. -/
def codeineScenarioLines : List PyStr :=
  [ps ("##fileformat=VCFv4.2"),
   ps ("#CHROM\tPOS\tID\tREF\tALT\tQUAL\tFILTER\tINFO"),
   ps ("chr22\t42126611\trs1065852\tC\tT\t.\tPASS\tGENE=CYP2D6;STAR=*4;RS=1065852")]

/-- The CYP2D6 `*4` record parsed from `codeineScenarioLines`. -/
def codeineScenarioRecord : VariantRecord :=
  { chrom := ps ("chr22"), pos := 42126611, id := ps ("rs1065852"),
    ref := ps ("C"), alt := ps ("T"), gene := ps ("CYP2D6"),
    star := ps ("*4"), rsid := ps ("rs1065852"),
    raw_info := [(ps ("GENE"), ps ("CYP2D6")), (ps ("STAR"), ps ("*4")),
                 (ps ("RS"), ps ("1065852"))] }

/-- Witness for C7: the gene map parsed from the scenario input file. -/
theorem codeine_pm_scenario_witness :
    (analyzeDrug (ps ("CODEINE"))
        (pure_python_parse codeineScenarioLines)).pgx_profile.diplotype =
        ps ("*4/*4") ∧
    (analyzeDrug (ps ("CODEINE"))
        (pure_python_parse codeineScenarioLines)).pgx_profile.phenotype =
        Phenotype.PM ∧
    (analyzeDrug (ps ("CODEINE"))
        (pure_python_parse codeineScenarioLines)).risk_assessment.risk_label =
        RiskLabel.INEFFECTIVE ∧
    (analyzeDrug (ps ("CODEINE"))
        (pure_python_parse codeineScenarioLines)).clinical_recommendation.contraindication =
        true ∧
    (analyzeDrug (ps ("CODEINE"))
        (pure_python_parse codeineScenarioLines)).alternative_medications ≠ [] ∧
    ∃ alt ∈ (analyzeDrug (ps ("CODEINE"))
        (pure_python_parse codeineScenarioLines)).alternative_medications,
      alt.name = "Acetaminophen (Paracetamol)" :=
  codeine_pm_scenario (pure_python_parse codeineScenarioLines)
    codeineScenarioRecord (by decide) (by decide)

/-! ### Claim C5 -/

lemma parseDataLine_skip (l : PyStr)
    (h : (pySplitChar '\t' l).length < 8 ∨
         pyParseInt ((pySplitChar '\t' l).getD 1 []) = none) :
    parseDataLine l = none := by
  by_cases h1 : l = [] ∨ (ps ("#")).isPrefixOf l = true
  · simp only [parseDataLine, if_pos h1]
  · by_cases h2 : (pySplitChar '\t' l).length < 8
    · simp only [parseDataLine, if_neg h1, if_pos h2]
    · rcases h with h | h
      · exact absurd h h2
      · simp only [parseDataLine, if_neg h1, if_neg h2, h]

/-- C5: in a structurally valid input, a data line with fewer than 8
tab-separated columns or a non-integer position column contributes no
variant record: the file still parses and yields the same gene map as the
input without that line. -/
theorem malformed_row_skipped (pre suf : List PyStr) (l : PyStr)
    (hval : validate_vcf_signature (pre ++ l :: suf) = Except.ok ())
    (hne : l ≠ []) (hnh : (ps ("#")).isPrefixOf l = false)
    (hbad : (pySplitChar '\t' l).length < 8 ∨
            pyParseInt ((pySplitChar '\t' l).getD 1 []) = none) :
    parse_vcf (pre ++ l :: suf) = Except.ok (pure_python_parse (pre ++ suf)) := by
  have hskip := parseDataLine_skip l hbad
  have hpp : pure_python_parse (pre ++ l :: suf) = pure_python_parse (pre ++ suf) := by
    unfold pure_python_parse
    rw [List.foldl_append, List.foldl_append, List.foldl_cons]
    have : parseStep (List.foldl parseStep initGeneMap pre) l =
        List.foldl parseStep initGeneMap pre := by
      unfold parseStep
      simp only [hskip]
    rw [this]
  simp only [parse_vcf, hval, hpp]

/-- Witness for C5: a valid two-line header followed by a data row whose
position column is not numeric. -/
theorem malformed_row_skipped_witness :
    parse_vcf
        [ps ("##fileformat=VCFv4.2"),
         ps ("#CHROM\tPOS\tID\tREF\tALT\tQUAL\tFILTER\tINFO"),
         ps ("chr1\tabc\t.\tA\tG\t.\t.\tGENE=CYP2D6")] =
      Except.ok (pure_python_parse
        [ps ("##fileformat=VCFv4.2"),
         ps ("#CHROM\tPOS\tID\tREF\tALT\tQUAL\tFILTER\tINFO")]) :=
  malformed_row_skipped
    [ps ("##fileformat=VCFv4.2"),
     ps ("#CHROM\tPOS\tID\tREF\tALT\tQUAL\tFILTER\tINFO")]
    [] (ps ("chr1\tabc\t.\tA\tG\t.\t.\tGENE=CYP2D6"))
    rfl (by decide) (by decide) (Or.inr (by decide))

/-! ### Claim C9 -/

/-- A structurally valid input whose CYP2D6 data row carries position
column `-7`; Python `int("-7")` succeeds and the parser performs no
positivity check. -/
def negPosLines : List PyStr :=
  [ps ("##fileformat=VCFv4.2"),
   ps ("#CHROM\tPOS\tID\tREF\tALT\tQUAL\tFILTER\tINFO"),
   ps ("chr22\t-7\t.\tC\tT\t.\tPASS\tGENE=CYP2D6;STAR=*4")]

/-- Counterexample to C9 as stated: the parser returns a gene map holding a
CYP2D6 record whose position is not strictly positive. -/
theorem parser_pos_not_positive :
    ∃ m, parse_vcf negPosLines = Except.ok m ∧
      ∃ r ∈ getGene m (ps ("CYP2D6")), ¬ 0 < r.pos :=
  ⟨pure_python_parse negPosLines, rfl, by decide⟩

lemma getGene_cons (k : PyStr) (w : List VariantRecord) (tail : GeneMap)
    (g : PyStr) :
    getGene ((k, w) :: tail) g = if k = g then w else getGene tail g := by
  by_cases hk : k = g
  · simp [getGene, alookup, hk]
  · simp [getGene, alookup, hk]

lemma mem_getGene_appendRecord (m : GeneMap) (g' g : PyStr)
    (x r : VariantRecord) (h : r ∈ getGene (appendRecord m g' x) g) :
    r = x ∨ r ∈ getGene m g := by
  induction m with
  | nil =>
      simp [getGene, appendRecord, alookup] at h
  | cons p rest ih =>
      obtain ⟨k, w⟩ := p
      rw [show appendRecord ((k, w) :: rest) g' x =
          (if k = g' then (k, w ++ [x]) else (k, w)) :: appendRecord rest g' x
          from rfl] at h
      by_cases hp : k = g'
      · rw [if_pos hp, getGene_cons] at h
        by_cases hk : k = g
        · rw [if_pos hk] at h
          rw [getGene_cons, if_pos hk]
          rcases List.mem_append.mp h with h | h
          · exact Or.inr h
          · exact Or.inl (List.mem_singleton.mp h)
        · rw [if_neg hk] at h
          rw [getGene_cons, if_neg hk]
          exact ih h
      · rw [if_neg hp, getGene_cons] at h
        by_cases hk : k = g
        · rw [if_pos hk] at h
          rw [getGene_cons, if_pos hk]
          exact Or.inr h
        · rw [if_neg hk] at h
          rw [getGene_cons, if_neg hk]
          exact ih h

lemma mem_foldl_parseStep (lines : List PyStr) (m : GeneMap) (g : PyStr)
    (r : VariantRecord) (h : r ∈ getGene (lines.foldl parseStep m) g) :
    r ∈ getGene m g ∨ ∃ l ∈ lines, ∃ g', parseDataLine l = some (g', r) := by
  induction lines generalizing m with
  | nil => exact Or.inl h
  | cons l rest ih =>
      rw [List.foldl_cons] at h
      rcases ih (parseStep m l) h with h' | ⟨l', hl', g', hx⟩
      · rcases hstep : parseDataLine l with _ | ⟨g0, x⟩
        · rw [parseStep, hstep] at h'
          exact Or.inl h'
        · rw [parseStep, hstep] at h'
          rcases mem_getGene_appendRecord m g0 g x r h' with rfl | hm
          · exact Or.inr ⟨l, List.mem_cons_self l rest, g0, hstep⟩
          · exact Or.inl hm
      · exact Or.inr ⟨l', List.mem_cons_of_mem l hl', g', hx⟩

lemma getGene_initGeneMap (g : PyStr) : getGene initGeneMap g = [] := by
  simp only [getGene, initGeneMap, SUPPORTED_GENES, List.map_cons, alookup,
    List.map_nil]
  split_ifs <;> rfl

lemma parseDataLine_pos (l : PyStr) (g : PyStr) (r : VariantRecord)
    (h : parseDataLine l = some (g, r)) :
    pyParseInt ((pySplitChar '\t' l).getD 1 []) = some r.pos := by
  by_cases h1 : l = [] ∨ (ps ("#")).isPrefixOf l = true
  · simp only [parseDataLine, if_pos h1] at h
    exact Option.noConfusion h
  · by_cases h2 : (pySplitChar '\t' l).length < 8
    · simp only [parseDataLine, if_neg h1, if_pos h2] at h
      exact Option.noConfusion h
    · rcases hp : pyParseInt ((pySplitChar '\t' l).getD 1 []) with _ | pos
      · simp only [parseDataLine, if_neg h1, if_neg h2, hp] at h
        exact Option.noConfusion h
      · simp only [parseDataLine, if_neg h1, if_neg h2, hp] at h
        split_ifs at h
        have hgr := Option.some.inj h
        have hrec := ((Prod.mk.injEq _ _ _ _).mp hgr).2
        rw [← hrec]

/-- C9 amended: every record in a gene list of the returned map has its
`pos` field equal to the integer parsed — Python `int` semantics, sign
included — from the second tab-column of some input line; the parser never
checks that this value is positive, so non-positive positions occur
(see the counterexample). -/
theorem parser_pos_from_input (lines : List PyStr) (g : PyStr)
    (r : VariantRecord) (h : r ∈ getGene (pure_python_parse lines) g) :
    ∃ l ∈ lines, pyParseInt ((pySplitChar '\t' l).getD 1 []) = some r.pos := by
  rcases mem_foldl_parseStep lines initGeneMap g r h with h0 | ⟨l, hl, g', hx⟩
  · rw [getGene_initGeneMap] at h0
    cases h0
  · exact ⟨l, hl, parseDataLine_pos l g' r hx⟩

/-- The CYP2D6 record parsed from `negPosLines`. -/
def negPosRecord : VariantRecord :=
  { chrom := ps ("chr22"), pos := -7, id := ps ("."), ref := ps ("C"),
    alt := ps ("T"), gene := ps ("CYP2D6"), star := ps ("*4"), rsid := [],
    raw_info := [(ps ("GENE"), ps ("CYP2D6")), (ps ("STAR"), ps ("*4"))] }

/-- Witness for the amended C9 at the `-7`-position input. -/
theorem parser_pos_from_input_witness :
    ∃ l ∈ negPosLines,
      pyParseInt ((pySplitChar '\t' l).getD 1 []) = some negPosRecord.pos :=
  parser_pos_from_input negPosLines (ps ("CYP2D6")) negPosRecord (by decide)

/-! ### Claim C4 -/

/-- A line that (after stripping) starts with `##fileformat=VCF`. -/
def isFFLine (l : PyStr) : Bool :=
  (ps ("##fileformat=VCF")).isPrefixOf (pyStrip l)

/-- A line that (after stripping) starts with `#CHROM`. -/
def isChromStart (l : PyStr) : Bool :=
  (ps ("#CHROM")).isPrefixOf (pyStrip l)

/-- A line whose first 8 tab-separated columns (after stripping) are the
required `#CHROM` header columns. -/
def chromColsOk (l : PyStr) : Bool :=
  (pySplitChar '\t' (pyStrip l)).take 8 == REQUIRED_COLS

/-- The input has a `#CHROM` line whose first 8 tab-separated columns are
exactly the required ones. -/
def goodChrom (lines : List PyStr) : Bool :=
  lines.any (fun l => isChromStart l && chromColsOk l)

/-- The input has a `##fileformat=VCF` line occurring strictly before some
`#CHROM`-starting line. -/
def goodFF : List PyStr → Bool
  | [] => false
  | l :: rest => (isFFLine l && rest.any isChromStart) || goodFF rest

lemma ff_chrom_incompatible (s : PyStr) (hff : (ps ("##fileformat=VCF")).isPrefixOf s = true)
    (hch : (ps ("#CHROM")).isPrefixOf s = true) : False := by
  have e1 : ps ("##fileformat=VCF") = '#' :: '#' :: ps ("fileformat=VCF") := rfl
  have e2 : ps ("#CHROM") = '#' :: 'C' :: ps ("HROM") := rfl
  rw [e1] at hff
  rw [e2] at hch
  match s with
  | [] => simp [List.isPrefixOf] at hff
  | [c] => simp [List.isPrefixOf] at hff
  | a :: b :: t =>
      simp only [List.isPrefixOf, Bool.and_eq_true, beq_iff_eq] at hff hch
      exact absurd (hff.2.1 ▸ hch.2.1) (by decide)

lemma goodChrom_cons (z : PyStr) (rest : List PyStr) :
    goodChrom (z :: rest) = ((isChromStart z && chromColsOk z) || goodChrom rest) :=
  rfl

lemma headerScan_chrom_found (l : List PyStr) (ff ffout : Bool)
    (h : headerScan l ff = Except.ok (ffout, true)) :
    goodChrom l = true := by
  induction l generalizing ff with
  | nil => simp [headerScan] at h
  | cons z rest ih =>
      rw [headerScan] at h
      by_cases hc : (ps ("#CHROM")).isPrefixOf (pyStrip z) = true
      · rw [if_pos hc] at h
        by_cases hcols : (pySplitChar '\t' (pyStrip z)).take 8 ≠ REQUIRED_COLS
        · rw [if_pos hcols] at h
          exact Except.noConfusion h
        · rw [if_neg hcols] at h
          have hck : chromColsOk z = true := by
            simp only [chromColsOk, beq_iff_eq]
            exact not_not.mp hcols
          rw [goodChrom_cons, isChromStart, hc, hck]
          rfl
      · rw [if_neg hc] at h
        by_cases hh : ¬ (ps ("#")).isPrefixOf (pyStrip z) = true
        · rw [if_pos hh] at h
          have := (Prod.mk.injEq _ _ _ _).mp (Except.ok.inj h)
          exact Bool.noConfusion this.2
        · rw [if_neg hh] at h
          rw [goodChrom_cons, ih _ h, Bool.or_true]

lemma any_isChromStart_of_goodChrom (l : List PyStr)
    (h : goodChrom l = true) : l.any isChromStart = true := by
  induction l with
  | nil => simp [goodChrom] at h
  | cons z rest ih =>
      rw [goodChrom_cons] at h
      rcases Bool.or_eq_true_iff.mp h with h1 | h1
      · rw [List.any_cons, (Bool.and_eq_true _ _).mp h1 |>.1, Bool.true_or]
      · rw [List.any_cons, ih h1, Bool.or_true]

lemma headerScan_ff_found (l : List PyStr) (ff : Bool)
    (h : headerScan l ff = Except.ok (true, true)) :
    ff = true ∨ goodFF l = true := by
  induction l generalizing ff with
  | nil => simp [headerScan] at h
  | cons z rest ih =>
      rw [headerScan] at h
      rcases hffb : (ps ("##fileformat=VCF")).isPrefixOf (pyStrip z) with _ | _
      all_goals rw [hffb] at h
      · -- no fileformat mark on this line: the flag passes through unchanged
        rw [Bool.or_false] at h
        by_cases hc : (ps ("#CHROM")).isPrefixOf (pyStrip z) = true
        · rw [if_pos hc] at h
          by_cases hcols : (pySplitChar '\t' (pyStrip z)).take 8 ≠ REQUIRED_COLS
          · rw [if_pos hcols] at h
            exact Except.noConfusion h
          · rw [if_neg hcols] at h
            have hpair := (Prod.mk.injEq _ _ _ _).mp (Except.ok.inj h)
            exact Or.inl hpair.1
        · rw [if_neg hc] at h
          by_cases hh : ¬ (ps ("#")).isPrefixOf (pyStrip z) = true
          · rw [if_pos hh] at h
            have := (Prod.mk.injEq _ _ _ _).mp (Except.ok.inj h)
            exact Bool.noConfusion this.2
          · rw [if_neg hh] at h
            rcases ih _ h with h1 | h1
            · exact Or.inl h1
            · refine Or.inr ?_
              show ((isFFLine z && rest.any isChromStart) || goodFF rest) = true
              rw [h1, Bool.or_true]
      · -- this line is a fileformat line
        rw [Bool.or_true] at h
        by_cases hc : (ps ("#CHROM")).isPrefixOf (pyStrip z) = true
        · exact absurd (ff_chrom_incompatible (pyStrip z) hffb hc) (fun f => f)
        · rw [if_neg hc] at h
          by_cases hh : ¬ (ps ("#")).isPrefixOf (pyStrip z) = true
          · rw [if_pos hh] at h
            have := (Prod.mk.injEq _ _ _ _).mp (Except.ok.inj h)
            exact Bool.noConfusion this.2
          · rw [if_neg hh] at h
            refine Or.inr ?_
            show ((isFFLine z && rest.any isChromStart) || goodFF rest) = true
            have hany : rest.any isChromStart = true :=
              any_isChromStart_of_goodChrom rest (headerScan_chrom_found rest _ _ h)
            have hffl : isFFLine z = true := hffb
            rw [hffl, hany]
            rfl

/-- C4: structural validation is the first rejection point: whenever the
input has no `##fileformat=VCF` line before a `#CHROM` line, or no `#CHROM`
line whose first 8 tab-separated columns are exactly
`#CHROM, POS, ID, REF, ALT, QUAL, FILTER, INFO`, `parse_vcf` raises a
validation error and returns no gene map, so no data row is parsed into a
variant record. -/
theorem structural_validation_rejects (lines : List PyStr)
    (h : goodFF lines = false ∨ goodChrom lines = false) :
    ∃ e, parse_vcf lines = Except.error e := by
  rcases hval : validate_vcf_signature lines with e | u
  · exact ⟨e, by simp [parse_vcf, hval]⟩
  · exfalso
    have hscan : headerScan lines false = Except.ok (true, true) := by
      by_cases hnil : lines = []
      · rw [validate_vcf_signature, if_pos hnil] at hval
        exact Except.noConfusion hval
      · rw [validate_vcf_signature, if_neg hnil] at hval
        rcases hs : headerScan lines false with e' | p
        · rw [hs] at hval
          exact Except.noConfusion hval
        · obtain ⟨hff, hch⟩ := p
          rw [hs] at hval
          rcases hff with _ | _ <;> rcases hch with _ | _ <;>
            simp at hval <;> rfl
    rcases h with h | h
    · rcases headerScan_ff_found lines false hscan with h' | h'
      · exact Bool.noConfusion h'
      · rw [h'] at h
        exact Bool.noConfusion h
    · rw [headerScan_chrom_found lines false true hscan] at h
      exact Bool.noConfusion h

/-- Witness for C4: a file whose `#CHROM` header is present and well-formed
but which has no `##fileformat=VCF` line is rejected. -/
theorem structural_validation_rejects_witness :
    goodFF [ps ("#CHROM\tPOS\tID\tREF\tALT\tQUAL\tFILTER\tINFO"),
            ps ("chr22\t42126611\trs1065852\tC\tT\t.\tPASS\tGENE=CYP2D6;STAR=*4")] =
        false ∧
    ∃ e, parse_vcf
        [ps ("#CHROM\tPOS\tID\tREF\tALT\tQUAL\tFILTER\tINFO"),
         ps ("chr22\t42126611\trs1065852\tC\tT\t.\tPASS\tGENE=CYP2D6;STAR=*4")] =
      Except.error e :=
  ⟨by decide,
   structural_validation_rejects
     [ps ("#CHROM\tPOS\tID\tREF\tALT\tQUAL\tFILTER\tINFO"),
      ps ("chr22\t42126611\trs1065852\tC\tT\t.\tPASS\tGENE=CYP2D6;STAR=*4")]
     (Or.inl (by decide))⟩

/-! ### Claim C3 -/

lemma pyLe_refl (a : PyStr) : pyLe a a = true := by
  induction a with
  | nil => rfl
  | cons c t ih => simp [pyLe, lt_irrefl, ih]

lemma pyLe_total (a b : PyStr) : pyLe a b = true ∨ pyLe b a = true := by
  induction a generalizing b with
  | nil => exact Or.inl rfl
  | cons c t ih =>
      cases b with
      | nil => exact Or.inr rfl
      | cons d u =>
          rcases lt_trichotomy c d with h | h | h
          · exact Or.inl (by simp [pyLe, h])
          · subst h
            rcases ih u with h' | h'
            · exact Or.inl (by simp [pyLe, lt_irrefl, h'])
            · exact Or.inr (by simp [pyLe, lt_irrefl, h'])
          · exact Or.inr (by simp [pyLe, h])

lemma pyLe_trans (a b c : PyStr) (h1 : pyLe a b = true) (h2 : pyLe b c = true) :
    pyLe a c = true := by
  induction a generalizing b c with
  | nil => rfl
  | cons x t ih =>
      cases b with
      | nil => simp [pyLe] at h1
      | cons y u =>
          cases c with
          | nil => simp [pyLe] at h2
          | cons z v =>
              rcases lt_trichotomy x y with hxy | hxy | hxy
              · rcases lt_trichotomy y z with hyz | hyz | hyz
                · simp [pyLe, lt_trans hxy hyz]
                · subst hyz
                  simp [pyLe, hxy]
                · simp only [pyLe, if_neg (asymm hyz), if_pos hyz] at h2
                  exact Bool.noConfusion h2
              · subst hxy
                rcases lt_trichotomy x z with hyz | hyz | hyz
                · simp [pyLe, hyz]
                · subst hyz
                  simp only [pyLe, if_neg (lt_irrefl x)] at h1 h2
                  simp [pyLe, lt_irrefl, ih u v h1 h2]
                · simp only [pyLe, if_neg (asymm hyz), if_pos hyz] at h2
                  exact Bool.noConfusion h2
              · simp only [pyLe, if_neg (asymm hxy), if_pos hxy] at h1
                exact Bool.noConfusion h1

instance : IsTotal PyStr pyLeR := ⟨pyLe_total⟩

instance : IsTrans PyStr pyLeR := ⟨pyLe_trans⟩

lemma sortedUnique_sorted (l : List PyStr) : (sortedUnique l).Sorted pyLeR :=
  List.sorted_insertionSort pyLeR l.dedup

lemma sortedUnique_perm (l : List PyStr) :
    List.Perm (sortedUnique l) l.dedup :=
  List.perm_insertionSort pyLeR l.dedup

lemma mem_sortedUnique (l : List PyStr) (s : PyStr) :
    s ∈ sortedUnique l ↔ s ∈ l := by
  rw [(sortedUnique_perm l).mem_iff, List.mem_dedup]

lemma sortedUnique_nodup (l : List PyStr) : (sortedUnique l).Nodup :=
  ((sortedUnique_perm l).nodup_iff).mpr l.nodup_dedup

/-- C3: `_infer_diplotype` forms the distinct non-empty, non-`"."`
star-allele tags in ascending lexicographic order; zero distinct tags give
`*1/*1`, one distinct tag `t` gives `t/t`, and two or more give the two
lexicographically smallest distinct tags joined with `/`. -/
theorem infer_diplotype_cases (vs : List VariantRecord) :
    ((∀ s, s ∈ sortedUnique (starTags vs) ↔ s ∈ starTags vs) ∧
     (sortedUnique (starTags vs)).Nodup ∧
     (sortedUnique (starTags vs)).Sorted pyLeR) ∧
    (sortedUnique (starTags vs) = [] → inferDiplotype vs = ps ("*1/*1")) ∧
    (∀ t, sortedUnique (starTags vs) = [t] →
       inferDiplotype vs = t ++ ps ("/") ++ t) ∧
    (∀ t1 t2 rest, sortedUnique (starTags vs) = t1 :: t2 :: rest →
       inferDiplotype vs = t1 ++ ps ("/") ++ t2 ∧
       pyLt t1 t2 ∧
       (∀ s ∈ starTags vs, s = t1 ∨ pyLt t1 s) ∧
       (∀ s ∈ starTags vs, s = t1 ∨ s = t2 ∨ pyLt t2 s)) := by
  refine ⟨⟨fun s => mem_sortedUnique _ s, sortedUnique_nodup _,
      sortedUnique_sorted _⟩, ?_, ?_, ?_⟩
  · intro h
    simp only [inferDiplotype, h]
  · intro t h
    simp only [inferDiplotype, h]
  · intro t1 t2 rest h
    have hsorted := sortedUnique_sorted (starTags vs)
    have hnodup := sortedUnique_nodup (starTags vs)
    rw [h] at hsorted hnodup
    have h1 := List.pairwise_cons.mp hsorted
    have h2 := List.pairwise_cons.mp h1.2
    have hn1 := List.nodup_cons.mp hnodup
    have hn2 := List.nodup_cons.mp hn1.2
    refine ⟨by simp only [inferDiplotype, h], ?_, ?_, ?_⟩
    · exact ⟨h1.1 t2 (List.mem_cons_self t2 rest),
        fun he => hn1.1 (he ▸ List.mem_cons_self t2 rest)⟩
    · intro s hs
      have hsu : s ∈ t1 :: t2 :: rest := h ▸ (mem_sortedUnique _ s).mpr hs
      rcases List.mem_cons.mp hsu with h' | h'
      · exact Or.inl h'
      · exact Or.inr ⟨h1.1 s h', fun he => hn1.1 (he ▸ h')⟩
    · intro s hs
      have hsu : s ∈ t1 :: t2 :: rest := h ▸ (mem_sortedUnique _ s).mpr hs
      rcases List.mem_cons.mp hsu with h' | h'
      · exact Or.inl h'
      · rcases List.mem_cons.mp h' with h'' | h''
        · exact Or.inr (Or.inl h'')
        · exact Or.inr (Or.inr ⟨h2.1 s h'', fun he => hn2.1 (he ▸ h'')⟩)

/-- Witness record for exercising the diplotype inference cases. -/
def starRecord (s : String) : VariantRecord :=
  { chrom := ps ("chr1"), pos := 1, id := ps ("."), ref := ps ("A"),
    alt := ps ("G"), gene := ps ("CYP2D6"), star := ps (s), rsid := [] }

/-- Witness for C3: with the distinct tags `*17`, `*2`, `*4` the two
lexicographically smallest (`*17` and `*2`) are joined. -/
theorem infer_diplotype_cases_witness :
    inferDiplotype [starRecord ("*4"), starRecord ("*17"),
        starRecord ("*4"), starRecord ("*2")] =
      ps ("*17") ++ ps ("/") ++ ps ("*2") :=
  ((infer_diplotype_cases [starRecord ("*4"), starRecord ("*17"),
      starRecord ("*4"), starRecord ("*2")]).2.2.2 (ps ("*17")) (ps ("*2"))
    [ps ("*4")] (by decide)).1

/-! ### Claim C1 -/

/-- Counterexample to C1 as stated: for TPMT, the mixed-case diplotype
`*1/*3a` resolves through the upper-cased fallback to IM, while its swapped
orientation `*3a/*1` upper-cases to `*3A/*1`, which is not in the table,
and resolves to Unknown. -/
theorem lookup_phenotype_asym :
    lookupPhenotype (ps ("TPMT")) (ps ("*1/*3a")) ≠
      lookupPhenotype (ps ("TPMT")) (ps ("*3a/*1")) := by
  decide

lemma pySplitChar_of_not_mem (sep : Char) (s : PyStr) (h : sep ∉ s) :
    pySplitChar sep s = [s] := by
  induction s with
  | nil => rfl
  | cons c t ih =>
      have hc : ¬ c = sep := fun he => h (he ▸ List.mem_cons_self c t)
      have ht : sep ∉ t := fun hm => h (List.mem_cons_of_mem c hm)
      rw [pySplitChar, if_neg hc, ih ht]

lemma pySplitChar_append_sep (sep : Char) (a b : PyStr) (h : sep ∉ a) :
    pySplitChar sep (a ++ sep :: b) = a :: pySplitChar sep b := by
  induction a with
  | nil => simp [pySplitChar]
  | cons c t ih =>
      have hc : ¬ c = sep := fun he => h (he ▸ List.mem_cons_self c t)
      have ht : sep ∉ t := fun hm => h (List.mem_cons_of_mem c hm)
      rw [List.cons_append, pySplitChar, if_neg hc, ih ht]

lemma pySplitChar_pair (sep : Char) (a b : PyStr) (ha : sep ∉ a)
    (hb : sep ∉ b) : pySplitChar sep (a ++ sep :: b) = [a, b] := by
  rw [pySplitChar_append_sep sep a b ha, pySplitChar_of_not_mem sep b hb]

/-- The swapped orientation of a diplotype, exactly as `_lookup_phenotype`
builds it from the two `/`-separated parts. -/
def swapStr (d : PyStr) : PyStr :=
  match pySplitChar '/' d with
  | [a, b] => b ++ ps ("/") ++ a
  | _ => d

/-- A phenotype table never maps a diplotype and its swapped orientation to
two different phenotypes. -/
def swapConsistent (t : List (PyStr × Phenotype)) : Bool :=
  t.all (fun kp =>
    match alookup t (swapStr kp.1) with
    | some q => kp.2 == q
    | none => true)

lemma alookup_mem {α β : Type} [DecidableEq α] (l : List (α × β)) (k : α)
    (v : β) (h : alookup l k = some v) : (k, v) ∈ l := by
  induction l with
  | nil => exact Option.noConfusion h
  | cons p rest ih =>
      obtain ⟨k', v'⟩ := p
      by_cases hk : k' = k
      · rw [alookup, if_pos hk] at h
        rw [← hk, ← Option.some.inj h]
        exact List.mem_cons_self _ _
      · rw [alookup, if_neg hk] at h
        exact List.mem_cons_of_mem _ (ih h)

lemma swapConsistent_eq (t : List (PyStr × Phenotype))
    (hsc : swapConsistent t = true) (d : PyStr) (p q : Phenotype)
    (hp : alookup t d = some p) (hq : alookup t (swapStr d) = some q) :
    p = q := by
  have hmem := alookup_mem t d p hp
  have hall := List.all_eq_true.mp hsc ⟨d, p⟩ hmem
  simp only at hall
  rw [hq] at hall
  exact eq_of_beq hall

lemma genePhenotypeTable_swapConsistent (gene : PyStr) :
    swapConsistent ((alookup GENE_PHENOTYPE_TABLES gene).getD []) = true := by
  simp only [GENE_PHENOTYPE_TABLES, alookup]
  split_ifs <;> decide

/-- C1 amended: phenotype resolution is symmetric in allele order for every
diplotype `A/B` whose text is unchanged by upper-casing (which covers every
diplotype built from the tables' own alleles); the unrestricted claim fails
because the upper-cased fallback step is applied to the original
orientation only (see the counterexample). -/
theorem lookup_phenotype_symm (gene a b : PyStr)
    (ha : '/' ∉ a) (hb : '/' ∉ b)
    (hua : pyUpper a = a) (hub : pyUpper b = b) :
    lookupPhenotype gene (a ++ ps ("/") ++ b) =
      lookupPhenotype gene (b ++ ps ("/") ++ a) := by
  have e1 : a ++ ps ("/") ++ b = a ++ '/' :: b := by
    rw [List.append_assoc]
    rfl
  have e2 : b ++ ps ("/") ++ a = b ++ '/' :: a := by
    rw [List.append_assoc]
    rfl
  have hsplit1 : pySplitChar '/' (a ++ '/' :: b) = [a, b] :=
    pySplitChar_pair '/' a b ha hb
  have hsplit2 : pySplitChar '/' (b ++ '/' :: a) = [b, a] :=
    pySplitChar_pair '/' b a hb ha
  have hup1 : pyUpper (a ++ '/' :: b) = a ++ '/' :: b := by
    simp only [pyUpper, List.map_append, List.map_cons] at *
    rw [hua, hub]
    rw [show Char.toUpper '/' = '/' by decide]
  have hup2 : pyUpper (b ++ '/' :: a) = b ++ '/' :: a := by
    simp only [pyUpper, List.map_append, List.map_cons] at *
    rw [hua, hub]
    rw [show Char.toUpper '/' = '/' by decide]
  have hsc := genePhenotypeTable_swapConsistent gene
  rw [e1, e2]
  unfold lookupPhenotype
  rcases hda : alookup ((alookup GENE_PHENOTYPE_TABLES gene).getD [])
      (a ++ '/' :: b) with _ | p <;>
    rcases hdb : alookup ((alookup GENE_PHENOTYPE_TABLES gene).getD [])
        (b ++ '/' :: a) with _ | q
  · -- neither orientation in the table: both sides fall to the upper-cased
    -- lookup of an unchanged string and return Unknown
    simp only [hda, hdb, hsplit1, hsplit2, e1, e2, hup1, hup2]
  · -- only the swapped orientation is in the table
    simp only [hda, hdb, hsplit1, hsplit2, e1, e2, hup1, hup2]
  · -- only the original orientation is in the table
    simp only [hda, hdb, hsplit1, hsplit2, e1, e2, hup1, hup2]
  · -- both orientations in the table: the table is swap-consistent
    simp only [hda, hdb]
    have hq : alookup ((alookup GENE_PHENOTYPE_TABLES gene).getD [])
        (swapStr (a ++ '/' :: b)) = some q := by
      rw [swapStr, hsplit1]
      simp only [e2]
      exact hdb
    exact swapConsistent_eq _ hsc _ p q hda hq

/-- Witness for the amended C1: TPMT `*1/*3A` and `*3A/*1` (both already
upper-case) resolve identically. -/
theorem lookup_phenotype_symm_witness :
    lookupPhenotype (ps ("TPMT")) (ps ("*1") ++ ps ("/") ++ ps ("*3A")) =
      lookupPhenotype (ps ("TPMT")) (ps ("*3A") ++ ps ("/") ++ ps ("*1")) :=
  lookup_phenotype_symm (ps ("TPMT")) (ps ("*1")) (ps ("*3A"))
    (by decide) (by decide) (by decide) (by decide)
